import Mathlib

/-!
Shallow embedding of the Steel Browser session-lifecycle client found in
src/examples/ai-agent.py (class SteelBrowserSession and run_ai_agent_task)
and src/examples/simple-test.py (test_steel_cdp).

Modelling conventions:
- An HTTP round trip is an environment-supplied outcome: either a response
  (status code and parsed JSON body) or a transport failure (timeout,
  connection refused, ...), which the requests library surfaces as a raised
  RequestException.
- Python exceptions are an explicit error type threaded through Except.
- Every operation also returns the list of observable events it performed
  (HTTP requests with their URL, body and timeout; collaborator actions),
  so that trace properties (which calls are issued, with which timeouts)
  can be stated.
- uuid.uuid4() is external randomness: the fresh identifier is a parameter.
-/

/-- Parsed JSON body of a session-API response, with the three fields the
scripts read. An absent field models a JSON object missing that key. -/
structure SessionData where
  websocketUrl : Option String
  debugUrl : Option String
  sessionViewerUrl : Option String
deriving DecidableEq, Repr

/-- An HTTP response as delivered by the requests library: final status code
and parsed body. -/
structure HttpResponse where
  status_code : Nat
  body : SessionData
deriving DecidableEq, Repr

/-- Outcome of one network round trip: a response, or a transport-level
failure (timeout, refused connection), which requests raises as an
exception. -/
inductive NetResult where
  | resp (r : HttpResponse)
  | transportError
deriving DecidableEq, Repr

/-- The Python exceptions relevant to these scripts. -/
inductive PyError where
  | requestException
  | httpError (status : Nat)
  | keyError
  | agentError
  | cancelled
deriving DecidableEq, Repr

/-- The spec error taxonomy maps creation failures (transport error raised by
requests.post, or the HTTPError from raise_for_status) to
SessionCreationError. -/
def isSessionCreationError : PyError → Bool
  | .requestException => true
  | .httpError _ => true
  | _ => false

/-- Semantics of requests.Response.raise_for_status: it raises HTTPError
exactly for client-error (4xx) and server-error (5xx) status codes. -/
def raise_for_status (r : HttpResponse) : Except PyError Unit :=
  if 400 ≤ r.status_code ∧ r.status_code < 600 then
    Except.error (PyError.httpError r.status_code)
  else
    Except.ok ()

/-- Observable events of a run: the three HTTP requests (with URL, request
body where present, and the timeout argument passed to requests, where none
models the requests default of no timeout), the external collaborator
actions, and the invocation of release_session (emitted at its call site,
before its internal guard). The create-request body is the sessionId value
of the JSON payload. -/
inductive Ev where
  | createReq (url : String) (sessionId : String) (timeout : Option Nat)
  | getReq (url : String) (timeout : Option Nat)
  | releaseReq (url : String) (timeout : Option Nat)
  | agentRun
  | browserClose
  | releaseInvoked
deriving DecidableEq, Repr

/-- True for the events that are network calls. -/
def Ev.isHttpReq : Ev → Bool
  | .createReq _ _ _ => true
  | .getReq _ _ => true
  | .releaseReq _ _ => true
  | _ => false

/-- The instance fields of class SteelBrowserSession. __init__ sets
session_id, cdp_url and session_data to None. -/
structure SteelBrowserSession where
  api_url : String
  session_id : Option String
  cdp_url : Option String
  session_data : Option SessionData
deriving DecidableEq, Repr

/-- SteelBrowserSession.__init__. -/
def SteelBrowserSession.init (api_url : String) : SteelBrowserSession :=
  { api_url := api_url, session_id := none, cdp_url := none,
    session_data := none }

/-- Python truthiness of an optional string: None and the empty string are
falsy (the guard written as: if not self.session_id). -/
def truthy : Option String → Bool
  | none => false
  | some s => s ≠ ""

/-- Python f-string rendering of an optional string (None prints as the four
characters None). -/
def pyStr : Option String → String
  | none => "None"
  | some s => s

/-- Modelled from the spec: the Session state field (Uncreated, Active,
Released) does not exist in the code; the spec identifies Active with the
state in which the connection endpoint and session data are populated,
which happens exactly on a successful create call. -/
def isActive (s : SteelBrowserSession) : Bool :=
  s.session_data.isSome && s.cdp_url.isSome

/-- SteelBrowserSession.create_session. It first assigns
self.session_id = str(uuid.uuid4()) (the fresh identifier is the parameter
fid), then issues POST api_url/v1/sessions with body containing sessionId
and timeout 30, calls raise_for_status, and on success stores the parsed
body and sets cdp_url from its websocketUrl key with default
ws://localhost:3000/ (dict.get with a default). Returns the cdp_url.
A transport failure or an HTTPError propagates to the caller after
session_id was already assigned. -/
def create_session (self : SteelBrowserSession) (fid : String)
    (net : NetResult) :
    Except PyError String × SteelBrowserSession × List Ev :=
  let self1 := { self with session_id := some fid }
  let tr := [Ev.createReq (self1.api_url ++ "/v1/sessions") fid (some 30)]
  match net with
  | NetResult.transportError =>
      (Except.error PyError.requestException, self1, tr)
  | NetResult.resp r =>
      match raise_for_status r with
      | Except.error e => (Except.error e, self1, tr)
      | Except.ok _ =>
          let cdp := r.body.websocketUrl.getD "ws://localhost:3000/"
          (Except.ok cdp,
           { self1 with session_data := some r.body, cdp_url := some cdp },
           tr)

/-- SteelBrowserSession.get_session_details: GET
api_url/v1/sessions/session_id with timeout 10; returns the parsed body if
the status is 200 and None otherwise. There is no try block, so a transport
failure propagates as a raised exception. It does not modify the object. -/
def get_session_details (self : SteelBrowserSession) (net : NetResult) :
    Except PyError (Option SessionData) × List Ev :=
  let tr := [Ev.getReq
    (self.api_url ++ "/v1/sessions/" ++ pyStr self.session_id) (some 10)]
  match net with
  | NetResult.transportError => (Except.error PyError.requestException, tr)
  | NetResult.resp r =>
      (Except.ok (if r.status_code = 200 then some r.body else none), tr)

/-- SteelBrowserSession.release_session: returns immediately when
session_id is falsy (None or empty); otherwise issues POST
api_url/v1/sessions/session_id/release with timeout 10 inside a try block
whose except clause catches every Exception (transport failures included)
and only logs; a non-200 status is only logged. It never raises and does
not modify the object. -/
def release_session (self : SteelBrowserSession) (net : NetResult) :
    Except PyError Unit × List Ev :=
  if truthy self.session_id then
    let tr := [Ev.releaseReq
      (self.api_url ++ "/v1/sessions/" ++ pyStr self.session_id ++
       "/release") (some 10)]
    match net with
    | NetResult.transportError => (Except.ok (), tr)
    | NetResult.resp _ => (Except.ok (), tr)
  else
    (Except.ok (), [])

/-- Outcome of the external agent collaborator (agent.run()): normal
completion, a raised Exception, or asyncio.CancelledError, which since
Python 3.8 derives from BaseException and is therefore NOT caught by an
except-Exception clause. -/
inductive AgentOutcome where
  | success
  | failure
  | cancelled
deriving DecidableEq, Repr

/-- Outcome of browser.close() in the cleanup path; a failure is caught by
the inner except clause and only logged, so it is unobservable beyond the
close attempt itself. -/
inductive CloseOutcome where
  | ok
  | fails
deriving DecidableEq, Repr

/-- The environment of one run of run_ai_agent_task: the fresh uuid and the
outcome of each external interaction, in program order. -/
structure Env where
  freshId : String
  createNet : NetResult
  agent : AgentOutcome
  detailsNet : NetResult
  closeOutcome : CloseOutcome
  releaseNet : NetResult
deriving DecidableEq, Repr

/-- The try block of run_ai_agent_task after create_session returned: build
the Browser on the cdp url, run the agent, then call get_session_details
(whose transport failure would propagate here) and sleep. Returns the
pending exception of the block, if any, and the events performed. -/
def ai_agent_try_body (s1 : SteelBrowserSession)
    (createRes : Except PyError String) (env : Env) :
    Except PyError Unit × List Ev :=
  match createRes with
  | Except.error e => (Except.error e, [])
  | Except.ok _ =>
      match env.agent with
      | AgentOutcome.failure => (Except.error PyError.agentError, [Ev.agentRun])
      | AgentOutcome.cancelled => (Except.error PyError.cancelled, [Ev.agentRun])
      | AgentOutcome.success =>
          let d := get_session_details s1 env.detailsNet
          match d.1 with
          | Except.error e => (Except.error e, Ev.agentRun :: d.2)
          | Except.ok _ => (Except.ok (), Ev.agentRun :: d.2)

/-- run_ai_agent_task: constructs a fresh SteelBrowserSession, runs the try
block, catches any Exception from it (logging only) while CancelledError,
being a BaseException, is not caught; then the finally block runs
unconditionally: it attempts browser.close() inside its own
except-Exception guard (when create_session failed the name browser is
unbound, so the attempt raises NameError, also caught), and then invokes
release_session, which never raises. A pending CancelledError resumes
propagating after the finally block. Returns the overall outcome and the
event trace. -/
def run_ai_agent_task (api_url : String) (env : Env) :
    Except PyError Unit × List Ev :=
  let s0 := SteelBrowserSession.init api_url
  let c := create_session s0 env.freshId env.createNet
  let body := ai_agent_try_body c.2.1 c.1 env
  let caught : Except PyError Unit :=
    match body.1 with
    | Except.error PyError.cancelled => Except.error PyError.cancelled
    | Except.error _ => Except.ok ()
    | Except.ok _ => Except.ok ()
  let trClose : List Ev :=
    match c.1 with
    | Except.ok _ => [Ev.browserClose]
    | Except.error _ => []
  let rel := release_session c.2.1 env.releaseNet
  (caught, c.2.2 ++ body.2 ++ trClose ++ Ev.releaseInvoked :: rel.2)

/-- test_steel_cdp from src/examples/simple-test.py: POST create with NO
timeout argument (requests then applies no timeout), raise_for_status,
subscript accesses to websocketUrl and sessionViewerUrl (raising KeyError
when absent), the Playwright automation (external collaborator, whose
failure propagates since there is no try block), and a final POST release
with NO timeout and no status check or try block. -/
def test_steel_cdp (api_url : String) (session_id : String)
    (createNet : NetResult) (agent : AgentOutcome) (releaseNet : NetResult) :
    Except PyError Unit × List Ev :=
  let req := Ev.createReq (api_url ++ "/v1/sessions") session_id none
  match createNet with
  | NetResult.transportError => (Except.error PyError.requestException, [req])
  | NetResult.resp r =>
      match raise_for_status r with
      | Except.error e => (Except.error e, [req])
      | Except.ok _ =>
          match r.body.websocketUrl, r.body.sessionViewerUrl with
          | none, _ => (Except.error PyError.keyError, [req])
          | some _, none => (Except.error PyError.keyError, [req])
          | some _, some _ =>
              match agent with
              | AgentOutcome.failure =>
                  (Except.error PyError.agentError, [req, Ev.agentRun])
              | AgentOutcome.cancelled =>
                  (Except.error PyError.cancelled, [req, Ev.agentRun])
              | AgentOutcome.success =>
                  let rel := Ev.releaseReq
                    (api_url ++ "/v1/sessions/" ++ session_id ++ "/release")
                    none
                  match releaseNet with
                  | NetResult.transportError =>
                      (Except.error PyError.requestException,
                       [req, Ev.agentRun, rel])
                  | NetResult.resp _ =>
                      (Except.ok (), [req, Ev.agentRun, rel])

/-- True when a create call with this network outcome fails (transport
error, or a status raise_for_status rejects). -/
def createFailsNet : NetResult → Bool
  | NetResult.transportError => true
  | NetResult.resp r => decide (400 ≤ r.status_code) && decide (r.status_code < 600)

/-- Every request event uses the given base url and correlates on the given
session id: the create body carries it and the inspect and release URLs
embed it. Non-request events pass trivially. -/
def evUsesId (api fid : String) : Ev → Bool
  | Ev.createReq url body _ =>
      (url == api ++ "/v1/sessions") && (body == fid)
  | Ev.getReq url _ => url == api ++ "/v1/sessions/" ++ fid
  | Ev.releaseReq url _ => url == api ++ "/v1/sessions/" ++ fid ++ "/release"
  | _ => true

/-- The timeout discipline of the SteelBrowserSession client: 30 on the
create request, 10 on the inspect and release requests. -/
def evTimeoutPolicy : Ev → Bool
  | Ev.createReq _ _ t => t == some 30
  | Ev.getReq _ t => t == some 10
  | Ev.releaseReq _ t => t == some 10
  | _ => true

/-- Helper: release_session never raises, whatever the state and the network
outcome (the guard returns early, and the request is inside a try block
whose except clause catches every Exception). -/
theorem release_session_ok (s : SteelBrowserSession) (net : NetResult) :
    (release_session s net).1 = Except.ok () := by
  unfold release_session
  split
  · cases net <;> rfl
  · rfl

/-- Claim C1, counterexample: a 2xx response whose websocketUrl field is the
empty string makes create_session return an empty connection endpoint, so
the endpoint is not non-empty as the claim states. -/
theorem c1_counterexample :
    ¬ (∀ (r : HttpResponse), 200 ≤ r.status_code → r.status_code < 300 →
        ∀ w : String,
          (create_session (SteelBrowserSession.init "http://localhost:3000")
            "sid-1" (NetResult.resp r)).1 = Except.ok w → w ≠ "") := by
  intro h
  exact h ⟨200, ⟨some "", none, none⟩⟩ (by decide) (by decide) "" rfl rfl

/-- Claim C1 (amended): for every base URL and every 2xx service response
whose websocketUrl field is present and non-empty, create_session returns
that URL, stores it as the connection endpoint, and leaves the session
Active; when the field is absent or empty the endpoint silently defaults or
is empty. -/
theorem c1_create_success_endpoint (s : SteelBrowserSession) (fid : String)
    (r : HttpResponse) (w : String)
    (h2 : 200 ≤ r.status_code) (h3 : r.status_code < 300)
    (hw : r.body.websocketUrl = some w) (hne : w ≠ "") :
    (create_session s fid (NetResult.resp r)).1 = Except.ok w ∧
    (create_session s fid (NetResult.resp r)).2.1.cdp_url = some w ∧
    isActive (create_session s fid (NetResult.resp r)).2.1 = true ∧
    w ≠ "" := by
  have hrs : raise_for_status r = Except.ok () := by
    unfold raise_for_status
    rw [if_neg (by omega)]
  simp [create_session, hrs, hw, isActive, hne]

/-- Claim C1 witness at a concrete 201 response. -/
theorem c1_witness :
    (create_session (SteelBrowserSession.init "http://localhost:3000") "w1"
        (NetResult.resp ⟨201, ⟨some "ws://svc/cdp/w1", none, none⟩⟩)).1
      = Except.ok "ws://svc/cdp/w1" ∧
    (create_session (SteelBrowserSession.init "http://localhost:3000") "w1"
        (NetResult.resp ⟨201, ⟨some "ws://svc/cdp/w1", none, none⟩⟩)).2.1.cdp_url
      = some "ws://svc/cdp/w1" ∧
    isActive (create_session (SteelBrowserSession.init "http://localhost:3000")
        "w1" (NetResult.resp ⟨201, ⟨some "ws://svc/cdp/w1", none, none⟩⟩)).2.1
      = true ∧
    "ws://svc/cdp/w1" ≠ "" :=
  c1_create_success_endpoint _ _ _ _ (by decide) (by decide) rfl (by decide)

/-- Claim C2, counterexample: a creation response with the non-2xx status
300 passes raise_for_status (which only rejects 4xx and 5xx statuses), so
create_session succeeds and the session becomes Active, contrary to the
claim that every non-2xx status fails the call. -/
theorem c2_counterexample :
    ¬ (200 ≤ 300 ∧ 300 < 300) ∧
    (create_session (SteelBrowserSession.init "http://localhost:3000") "sid-2"
        (NetResult.resp ⟨300, ⟨some "ws://h/cdp", none, none⟩⟩)).1
      = Except.ok "ws://h/cdp" ∧
    isActive (create_session (SteelBrowserSession.init "http://localhost:3000")
        "sid-2" (NetResult.resp ⟨300, ⟨some "ws://h/cdp", none, none⟩⟩)).2.1
      = true :=
  ⟨by decide, rfl, rfl⟩

/-- Claim C2 (amended): for every creation call that returns a 4xx or 5xx
status, create_session fails with a SessionCreationError (the HTTPError
from raise_for_status), the session does not transition to Active (cdp_url
and session_data are unchanged), and exactly one request was issued (no
retry). -/
theorem c2_create_error_status_fails (s : SteelBrowserSession) (fid : String)
    (r : HttpResponse) (h4 : 400 ≤ r.status_code) (h6 : r.status_code < 600) :
    (create_session s fid (NetResult.resp r)).1
        = Except.error (PyError.httpError r.status_code) ∧
    isSessionCreationError (PyError.httpError r.status_code) = true ∧
    (create_session s fid (NetResult.resp r)).2.1.cdp_url = s.cdp_url ∧
    (create_session s fid (NetResult.resp r)).2.1.session_data
        = s.session_data ∧
    isActive (create_session s fid (NetResult.resp r)).2.1 = isActive s ∧
    (create_session s fid (NetResult.resp r)).2.2
        = [Ev.createReq (s.api_url ++ "/v1/sessions") fid (some 30)] := by
  have hrs : raise_for_status r
      = Except.error (PyError.httpError r.status_code) := by
    unfold raise_for_status
    rw [if_pos ⟨h4, h6⟩]
  simp [create_session, hrs, isActive, isSessionCreationError]

/-- Claim C2 witness at a concrete 404 response. -/
theorem c2_witness :
    (create_session (SteelBrowserSession.init "http://localhost:3000") "w2"
        (NetResult.resp ⟨404, ⟨none, none, none⟩⟩)).1
      = Except.error (PyError.httpError 404) ∧
    isSessionCreationError (PyError.httpError 404) = true ∧
    (create_session (SteelBrowserSession.init "http://localhost:3000") "w2"
        (NetResult.resp ⟨404, ⟨none, none, none⟩⟩)).2.1.cdp_url
      = (SteelBrowserSession.init "http://localhost:3000").cdp_url ∧
    (create_session (SteelBrowserSession.init "http://localhost:3000") "w2"
        (NetResult.resp ⟨404, ⟨none, none, none⟩⟩)).2.1.session_data
      = (SteelBrowserSession.init "http://localhost:3000").session_data ∧
    isActive (create_session (SteelBrowserSession.init "http://localhost:3000")
        "w2" (NetResult.resp ⟨404, ⟨none, none, none⟩⟩)).2.1
      = isActive (SteelBrowserSession.init "http://localhost:3000") ∧
    (create_session (SteelBrowserSession.init "http://localhost:3000") "w2"
        (NetResult.resp ⟨404, ⟨none, none, none⟩⟩)).2.2
      = [Ev.createReq ("http://localhost:3000" ++ "/v1/sessions") "w2"
          (some 30)] :=
  c2_create_error_status_fails _ _ _ (by decide) (by decide)

/-- Claim C3: release_session never raises to its caller, whatever the
state of the session and whatever the outcome of each release request, so
in particular two successive calls on the same session both return
normally. -/
theorem c3_release_twice_never_raises (s : SteelBrowserSession)
    (net1 net2 : NetResult) :
    (release_session s net1).1 = Except.ok () ∧
    (release_session s net2).1 = Except.ok () :=
  ⟨release_session_ok s net1, release_session_ok s net2⟩

/-- Claim C4: on a session that was never created (session_id is None),
release_session returns immediately with an empty event trace: no network
call is issued. -/
theorem c4_release_uncreated_noop (s : SteelBrowserSession) (net : NetResult)
    (h : s.session_id = none) :
    release_session s net = (Except.ok (), []) := by
  unfold release_session
  rw [h]
  rfl

/-- Claim C4 witness on a freshly constructed client. -/
theorem c4_witness :
    release_session (SteelBrowserSession.init "http://localhost:3000")
        NetResult.transportError = (Except.ok (), []) :=
  c4_release_uncreated_noop _ _ rfl

/-- Helper: whatever the network outcome, create_session stores the fresh
identifier as session_id (the assignment happens before the request) and
leaves api_url unchanged. -/
theorem create_session_state (s : SteelBrowserSession) (fid : String)
    (net : NetResult) :
    (create_session s fid net).2.1.session_id = some fid ∧
    (create_session s fid net).2.1.api_url = s.api_url := by
  cases net with
  | transportError => exact ⟨rfl, rfl⟩
  | resp r =>
      rcases hrs : raise_for_status r with e | u <;> simp [create_session, hrs]

/-- Helper: create_session issues exactly one request, whatever the
outcome. -/
theorem create_session_trace (s : SteelBrowserSession) (fid : String)
    (net : NetResult) :
    (create_session s fid net).2.2
      = [Ev.createReq (s.api_url ++ "/v1/sessions") fid (some 30)] := by
  cases net with
  | transportError => rfl
  | resp r =>
      rcases hrs : raise_for_status r with e | u <;> simp [create_session, hrs]

/-- Helper: get_session_details issues exactly one request, on the stored
session id, whatever the outcome. -/
theorem get_session_details_trace (s : SteelBrowserSession)
    (net : NetResult) :
    (get_session_details s net).2
      = [Ev.getReq (s.api_url ++ "/v1/sessions/" ++ pyStr s.session_id)
          (some 10)] := by
  cases net <;> rfl

/-- Helper: release_session issues either no request or exactly the one
release request on the stored session id. -/
theorem release_session_trace_cases (s : SteelBrowserSession)
    (net : NetResult) :
    (release_session s net).2 = [] ∨
    (release_session s net).2
      = [Ev.releaseReq
          (s.api_url ++ "/v1/sessions/" ++ pyStr s.session_id ++ "/release")
          (some 10)] := by
  unfold release_session
  split
  · cases net <;> simp
  · simp

/-- Helper: with a truthy stored id, release_session issues exactly the one
release request on that id. -/
theorem release_session_trace (s : SteelBrowserSession) (fid : String)
    (net : NetResult) (h : s.session_id = some fid) (hne : fid ≠ "") :
    (release_session s net).2
      = [Ev.releaseReq
          (s.api_url ++ "/v1/sessions/" ++ fid ++ "/release") (some 10)] := by
  cases net <;> simp [release_session, h, truthy, pyStr, hne]

/-- Helper: when the creation network outcome fails (transport error or a
4xx or 5xx status), create_session returns an error that the spec taxonomy
classifies as SessionCreationError. -/
theorem create_session_fails (s : SteelBrowserSession) (fid : String)
    (net : NetResult) (hf : createFailsNet net = true) :
    ∃ e, (create_session s fid net).1 = Except.error e ∧
      isSessionCreationError e = true ∧ e ≠ PyError.cancelled := by
  cases net with
  | transportError => exact ⟨PyError.requestException, rfl, rfl, by decide⟩
  | resp r =>
      have h46 : 400 ≤ r.status_code ∧ r.status_code < 600 := by
        simpa [createFailsNet] using hf
      have hrs : raise_for_status r
          = Except.error (PyError.httpError r.status_code) := by
        unfold raise_for_status
        rw [if_pos h46]
      exact ⟨PyError.httpError r.status_code, by simp [create_session, hrs],
        rfl, by simp⟩

/-- Helper: a non-empty stored id is truthy. -/
theorem truthy_some (s : String) (h : s ≠ "") : truthy (some s) = true := by
  simp [truthy, h]

/-- Claim C5, counterexample: in a run whose creation call fails with a
transport error (a timeout), the cleanup path still issues a release
request for the already-assigned id, contrary to the claim that no release
request is issued in such a run. -/
theorem c5_counterexample :
    Ev.releaseReq
        ("http://localhost:3000" ++ "/v1/sessions/" ++ "u5" ++ "/release")
        (some 10) ∈
      (run_ai_agent_task "http://localhost:3000"
        ⟨"u5", NetResult.transportError, AgentOutcome.success,
         NetResult.transportError, CloseOutcome.ok,
         NetResult.transportError⟩).2 := by
  decide

/-- Claim C5 (amended): in every run where the creation call fails,
create_session raises a SessionCreationError, the agent never runs, the run
still completes normally, and the cleanup path does issue a release request
for the already-assigned id (its failure is swallowed). -/
theorem c5_create_failure_release_attempted (api : String) (env : Env)
    (hf : createFailsNet env.createNet = true) (hid : env.freshId ≠ "") :
    (∃ e, (create_session (SteelBrowserSession.init api) env.freshId
          env.createNet).1 = Except.error e ∧
        isSessionCreationError e = true) ∧
    (run_ai_agent_task api env).1 = Except.ok () ∧
    Ev.releaseReq (api ++ "/v1/sessions/" ++ env.freshId ++ "/release")
        (some 10) ∈ (run_ai_agent_task api env).2 ∧
    Ev.agentRun ∉ (run_ai_agent_task api env).2 := by
  refine ⟨create_session_fails (SteelBrowserSession.init api) env.freshId
    env.createNet hf |>.imp (fun e h => ⟨h.1, h.2.1⟩), ?_⟩
  obtain ⟨fid, cnet, ag, dnet, cl, rnet⟩ := env
  have htr : truthy (some fid) = true := truthy_some fid hid
  cases cnet with
  | transportError =>
      cases rnet <;>
        simp [run_ai_agent_task, ai_agent_try_body, create_session,
          release_session, SteelBrowserSession.init, htr, pyStr]
  | resp r =>
      have h46 : 400 ≤ r.status_code ∧ r.status_code < 600 := by
        simpa [createFailsNet] using hf
      have hrs : raise_for_status r
          = Except.error (PyError.httpError r.status_code) := by
        unfold raise_for_status
        rw [if_pos h46]
      cases rnet <;>
        simp [run_ai_agent_task, ai_agent_try_body, create_session,
          release_session, SteelBrowserSession.init, hrs, htr, pyStr]

/-- Claim C5 witness at a concrete run whose creation call returns status
500. -/
theorem c5_witness :
    (∃ e, (create_session (SteelBrowserSession.init "http://localhost:3000")
          "u5b" (NetResult.resp ⟨500, ⟨none, none, none⟩⟩)).1
          = Except.error e ∧ isSessionCreationError e = true) ∧
    (run_ai_agent_task "http://localhost:3000"
        ⟨"u5b", NetResult.resp ⟨500, ⟨none, none, none⟩⟩,
         AgentOutcome.success, NetResult.transportError, CloseOutcome.ok,
         NetResult.resp ⟨404, ⟨none, none, none⟩⟩⟩).1 = Except.ok () ∧
    Ev.releaseReq
        ("http://localhost:3000" ++ "/v1/sessions/" ++ "u5b" ++ "/release")
        (some 10) ∈
      (run_ai_agent_task "http://localhost:3000"
        ⟨"u5b", NetResult.resp ⟨500, ⟨none, none, none⟩⟩,
         AgentOutcome.success, NetResult.transportError, CloseOutcome.ok,
         NetResult.resp ⟨404, ⟨none, none, none⟩⟩⟩).2 ∧
    Ev.agentRun ∉
      (run_ai_agent_task "http://localhost:3000"
        ⟨"u5b", NetResult.resp ⟨500, ⟨none, none, none⟩⟩,
         AgentOutcome.success, NetResult.transportError, CloseOutcome.ok,
         NetResult.resp ⟨404, ⟨none, none, none⟩⟩⟩).2 :=
  c5_create_failure_release_attempted "http://localhost:3000"
    ⟨"u5b", NetResult.resp ⟨500, ⟨none, none, none⟩⟩,
     AgentOutcome.success, NetResult.transportError, CloseOutcome.ok,
     NetResult.resp ⟨404, ⟨none, none, none⟩⟩⟩ (by decide) (by decide)

/-- Claim C6: for every response (in particular on a nonexistent or
released session), a non-200 status makes get_session_details return an
absent result rather than raise. -/
theorem c6_get_details_non200_absent (s : SteelBrowserSession)
    (r : HttpResponse) (h : r.status_code ≠ 200) :
    (get_session_details s (NetResult.resp r)).1 = Except.ok none := by
  simp [get_session_details, h]

/-- Claim C6 witness at a concrete 404 response. -/
theorem c6_witness :
    (get_session_details (SteelBrowserSession.init "http://localhost:3000")
        (NetResult.resp ⟨404, ⟨none, none, none⟩⟩)).1 = Except.ok none :=
  c6_get_details_non200_absent _ _ (by decide)

/-- Claim C7: in every run of the automation task, whatever the outcome of
the creation call, the agent (success, exception, or cancellation), the
browser close and the network, the finally block invokes release_session;
and whenever the generated id is non-empty, a release request is issued. -/
theorem c7_cleanup_always_releases (api : String) (env : Env) :
    Ev.releaseInvoked ∈ (run_ai_agent_task api env).2 ∧
    (env.freshId ≠ "" →
      Ev.releaseReq (api ++ "/v1/sessions/" ++ env.freshId ++ "/release")
        (some 10) ∈ (run_ai_agent_task api env).2) := by
  constructor
  · simp [run_ai_agent_task]
  · intro hne
    obtain ⟨fid, cnet, ag, dnet, cl, rnet⟩ := env
    have htr : truthy (some fid) = true := truthy_some fid hne
    cases cnet with
    | transportError =>
        cases rnet <;>
          simp [run_ai_agent_task, ai_agent_try_body, create_session,
            release_session, SteelBrowserSession.init, htr, pyStr]
    | resp r =>
        rcases hrs : raise_for_status r with e | u
        · cases rnet <;>
            simp [run_ai_agent_task, ai_agent_try_body, create_session,
              release_session, SteelBrowserSession.init, hrs, htr, pyStr]
        · cases ag <;> cases dnet <;> cases rnet <;>
            simp [run_ai_agent_task, ai_agent_try_body, create_session,
              get_session_details, release_session, SteelBrowserSession.init,
              hrs, htr, pyStr]

/-- Claim C7 witness at a concrete run whose agent raises. -/
theorem c7_witness :
    Ev.releaseInvoked ∈
      (run_ai_agent_task "http://localhost:3000"
        ⟨"u7", NetResult.resp ⟨200, ⟨some "ws://h/cdp", none, none⟩⟩,
         AgentOutcome.failure, NetResult.transportError, CloseOutcome.fails,
         NetResult.transportError⟩).2 ∧
    Ev.releaseReq
        ("http://localhost:3000" ++ "/v1/sessions/" ++ "u7" ++ "/release")
        (some 10) ∈
      (run_ai_agent_task "http://localhost:3000"
        ⟨"u7", NetResult.resp ⟨200, ⟨some "ws://h/cdp", none, none⟩⟩,
         AgentOutcome.failure, NetResult.transportError, CloseOutcome.fails,
         NetResult.transportError⟩).2 :=
  ⟨(c7_cleanup_always_releases "http://localhost:3000"
      ⟨"u7", NetResult.resp ⟨200, ⟨some "ws://h/cdp", none, none⟩⟩,
       AgentOutcome.failure, NetResult.transportError, CloseOutcome.fails,
       NetResult.transportError⟩).1,
   (c7_cleanup_always_releases "http://localhost:3000"
      ⟨"u7", NetResult.resp ⟨200, ⟨some "ws://h/cdp", none, none⟩⟩,
       AgentOutcome.failure, NetResult.transportError, CloseOutcome.fails,
       NetResult.transportError⟩).2 (by decide)⟩

/-- Claim C8: the client-generated id is stored before the create request
is issued (it is set whatever the request outcome), it is the sessionId
carried in the create-request body, and every request of a run (create,
inspect, release) addresses the same unchanged id under the same base
URL. -/
theorem c8_correlation_key (api : String) (env : Env) :
    ((run_ai_agent_task api env).2.all (evUsesId api env.freshId)) = true ∧
    (∀ (s : SteelBrowserSession) (fid : String) (net : NetResult),
      (create_session s fid net).2.1.session_id = some fid) := by
  constructor
  · obtain ⟨fid, cnet, ag, dnet, cl, rnet⟩ := env
    by_cases hfe : fid = ""
    · subst hfe
      cases cnet with
      | transportError =>
          cases rnet <;>
            simp [run_ai_agent_task, ai_agent_try_body, create_session,
              release_session, get_session_details, SteelBrowserSession.init,
              truthy, pyStr, evUsesId]
      | resp r =>
          rcases hrs : raise_for_status r with e | u
          · cases rnet <;>
              simp [run_ai_agent_task, ai_agent_try_body, create_session,
                release_session, get_session_details,
                SteelBrowserSession.init, truthy, pyStr, evUsesId, hrs]
          · cases ag <;> cases dnet <;> cases rnet <;>
              simp [run_ai_agent_task, ai_agent_try_body, create_session,
                release_session, get_session_details,
                SteelBrowserSession.init, truthy, pyStr, evUsesId, hrs]
    · have htr : truthy (some fid) = true := truthy_some fid hfe
      cases cnet with
      | transportError =>
          cases rnet <;>
            simp [run_ai_agent_task, ai_agent_try_body, create_session,
              release_session, get_session_details, SteelBrowserSession.init,
              htr, pyStr, evUsesId]
      | resp r =>
          rcases hrs : raise_for_status r with e | u
          · cases rnet <;>
              simp [run_ai_agent_task, ai_agent_try_body, create_session,
                release_session, get_session_details,
                SteelBrowserSession.init, htr, pyStr, evUsesId, hrs]
          · cases ag <;> cases dnet <;> cases rnet <;>
              simp [run_ai_agent_task, ai_agent_try_body, create_session,
                release_session, get_session_details,
                SteelBrowserSession.init, htr, pyStr, evUsesId, hrs]
  · intro s fid net
    exact (create_session_state s fid net).1

/-- Claim C9, counterexample: the create request issued by the simple CDP
test script carries no timeout at all, contrary to the claim that every
network call of the program carries the fixed timeout of 30 units for
creation. -/
theorem c9_counterexample :
    Ev.createReq ("http://localhost:3000" ++ "/v1/sessions") "u9" none ∈
      (test_steel_cdp "http://localhost:3000" "u9" NetResult.transportError
        AgentOutcome.success NetResult.transportError).2 ∧
    (none : Option Nat) ≠ some 30 := by
  constructor
  · simp [test_steel_cdp]
  · decide

/-- Claim C9 (amended): every network call issued by the
SteelBrowserSession client carries a fixed bounded timeout, 30 units on the
create request and 10 units on the inspect and release requests; the calls
of the simple test script carry no timeout. -/
theorem c9_timeout_policy (s : SteelBrowserSession) (fid : String)
    (netC netG netR : NetResult) :
    ((create_session s fid netC).2.2.all evTimeoutPolicy &&
     (get_session_details s netG).2.all evTimeoutPolicy &&
     (release_session s netR).2.all evTimeoutPolicy) = true := by
  rw [create_session_trace, get_session_details_trace]
  rcases release_session_trace_cases s netR with h | h <;> rw [h] <;> rfl

/-- Claim C10: when the create request fails (transport error or an
HTTPError from raise_for_status), create_session leaves cdp_url and
session_data at their prior value, while session_id has already been set to
the freshly generated identifier before the request was issued. -/
theorem c10_create_failure_frame (s : SteelBrowserSession) (fid : String)
    (net : NetResult) (e : PyError)
    (h : (create_session s fid net).1 = Except.error e) :
    (create_session s fid net).2.1.cdp_url = s.cdp_url ∧
    (create_session s fid net).2.1.session_data = s.session_data ∧
    (create_session s fid net).2.1.session_id = some fid := by
  cases net with
  | transportError => exact ⟨rfl, rfl, rfl⟩
  | resp r =>
      rcases hrs : raise_for_status r with e2 | u
      · simp [create_session, hrs]
      · simp [create_session, hrs] at h

/-- Claim C10 witness at a concrete timed-out create request on a fresh
client. -/
theorem c10_witness :
    (create_session (SteelBrowserSession.init "http://localhost:3000") "u10"
        NetResult.transportError).2.1.cdp_url
      = (SteelBrowserSession.init "http://localhost:3000").cdp_url ∧
    (create_session (SteelBrowserSession.init "http://localhost:3000") "u10"
        NetResult.transportError).2.1.session_data
      = (SteelBrowserSession.init "http://localhost:3000").session_data ∧
    (create_session (SteelBrowserSession.init "http://localhost:3000") "u10"
        NetResult.transportError).2.1.session_id = some "u10" :=
  c10_create_failure_frame _ _ _ PyError.requestException rfl
